import Mathlib

/-!
Verification of the NxAgent security-reasoning core.

This file gives a shallow embedding, in Lean 4, of the algorithmic core of the
NxAgent analytics plugin (anomaly engine, verification and response gate,
subject and strategy manager, cognitive task queue) and proves or refutes the
frozen specification claims about it.

Modelling conventions:
* C++ `float` and `double` arithmetic is idealized over the rationals `ℚ`
  (exact arithmetic); `static_cast<int>` of a floating value is truncation
  toward zero (`truncToInt`).
* `std::chrono::system_clock::time_point` values are modelled as integers
  counting milliseconds; `duration_cast` to coarser units is truncating
  division, matching the C++ semantics.
* `std::map` state is modelled by association lists (`List (key × value)`)
  with `List.lookup` for `find`, or by total functions when the key range is
  fixed (the 24 hour-of-day slots).
* Locks are no-ops in this sequential model; each public operation is a pure
  state-transition function.
* `std::exp` is an uninterpreted parameter `e : ℚ → ℚ` wherever it occurs,
  and values read from uninitialized memory are uninterpreted parameters
  named `junk`.
-/

namespace NxAgent

/-- Truncation toward zero of a rational number, modelling `static_cast<int>`
applied to a C++ floating-point value. -/
def truncToInt (q : ℚ) : Int := if 0 ≤ q then ⌊q⌋ else ⌈q⌉

/-! ## Feature vectors (nx_agent_anomaly.h / nx_agent_anomaly.cpp)

`FeatureVector` is the fixed-width numeric encoding of an observation used by
the statistical model. `toMat` builds the 1×(5+extra) OpenCV row matrix; the
matrix is modelled as a `List ℚ` of its entries. -/

/-- Embeds `struct FeatureVector` of nx_agent_anomaly.h. -/
structure FeatureVector where
  timestampUs : ℤ
  timeOfDaySeconds : ℤ
  dayOfWeek : ℤ
  motionLevel : ℚ
  personCount : ℤ
  unknownPersonCount : ℤ
  vehicleCount : ℤ
  additionalFeatures : List ℚ
deriving Repr, DecidableEq, Inhabited

/-- Embeds `FeatureVector::toMat` (nx_agent_anomaly.cpp lines 16-34): the
row matrix holds normalized time of day, normalized day of week, motion
level, person count, vehicle count, then the additional-feature tail.
`timestampUs` and `unknownPersonCount` are not written to the matrix. -/
def FeatureVector.toMat (v : FeatureVector) : List ℚ :=
  [(v.timeOfDaySeconds : ℚ) / 86400,
   (v.dayOfWeek : ℚ) / 7,
   v.motionLevel,
   (v.personCount : ℚ),
   (v.vehicleCount : ℚ)] ++ v.additionalFeatures

/-- Embeds `FeatureVector::fromMat` (nx_agent_anomaly.cpp lines 36-59).
The C++ function default-constructs a `FeatureVector` and never assigns
`timestampUs` or `unknownPersonCount` (they stay indeterminate; modelled
here as 0), then decodes the five basic entries and copies the tail. -/
def FeatureVector.fromMat (m : List ℚ) : FeatureVector :=
  { timestampUs := 0
    timeOfDaySeconds := truncToInt (m.getD 0 0 * 86400)
    dayOfWeek := truncToInt (m.getD 1 0 * 7)
    motionLevel := m.getD 2 0
    personCount := truncToInt (m.getD 3 0)
    unknownPersonCount := 0
    vehicleCount := truncToInt (m.getD 4 0)
    additionalFeatures := m.drop 5 }

/-- Concrete feature vector used to refute the round-trip claim. -/
def fvWithTimestamp : FeatureVector :=
  { timestampUs := 1
    timeOfDaySeconds := 3600
    dayOfWeek := 2
    motionLevel := 1/2
    personCount := 3
    unknownPersonCount := 2
    vehicleCount := 1
    additionalFeatures := [] }

/-- Same as `fvWithTimestamp` except for the two fields that `toMat` does not
encode (`timestampUs`, `unknownPersonCount`). -/
def fvWithTimestampB : FeatureVector :=
  { fvWithTimestamp with timestampUs := 7, unknownPersonCount := 0 }

/-! ## Gaussian model (nx_agent_anomaly.cpp lines 61-155)

The per-hour statistical model.  `cv::calcCovarMatrix` with flags
`COVAR_NORMAL | COVAR_ROWS | COVAR_SCALE` computes, from an N×k sample
matrix, the per-column mean vector and the k×k covariance matrix scaled by
1/N; its OpenCV signature is `calcCovarMatrix(samples, covar, mean, flags)`,
i.e. the covariance is the second argument and the mean the third. -/

/-- Column mean of a list of row vectors (entries fetched with default 0),
as computed by `cv::calcCovarMatrix` for the `mean` output. -/
def colMean (rows : List (List ℚ)) (j : ℕ) : ℚ :=
  (rows.map (fun r => r.getD j 0)).sum / rows.length

/-- Entry (a,b) of the scaled covariance matrix computed by
`cv::calcCovarMatrix` with `COVAR_NORMAL | COVAR_ROWS | COVAR_SCALE`. -/
def covarEntry (rows : List (List ℚ)) (a b : ℕ) : ℚ :=
  (rows.map (fun r =>
    (r.getD a 0 - colMean rows a) * (r.getD b 0 - colMean rows b))).sum
    / rows.length

/-- Embeds the state of `class GaussianModel`: `m_mean`, `m_stdDev` (row
matrices modelled as entry lists) and `m_trained`. A default-constructed
model has empty matrices and `m_trained = false`. -/
structure GaussianModel where
  mean : List ℚ
  stdDev : List ℚ
  trained : Bool
deriving Repr, DecidableEq

/-- The default-constructed `GaussianModel`. -/
def GaussianModel.init : GaussianModel := ⟨[], [], false⟩

/-- Embeds `GaussianModel::train` (nx_agent_anomaly.cpp lines 64-90) exactly
as written.  The call `cv::calcCovarMatrix(featureMat, m_mean, m_stdDev, …)`
stores the scaled covariance matrix in `m_mean` and the column means in
`m_stdDev`; `m_mean.reshape(1, 1)` flattens the k×k covariance row-major
into a 1×k² row; then `m_stdDev` is reassigned to a fresh uninitialized
1×k matrix and the loop reads `m_stdDev.at<float>(i, i)` from that fresh
matrix (out of bounds for i ≥ 1), so each stored `stdDev` entry is the
square root of an indeterminate value — modelled by the uninterpreted
parameter `junk`. -/
def GaussianModel.train (junk : ℕ → ℚ) (samples : List FeatureVector)
    (m : GaussianModel) : GaussianModel :=
  if samples.isEmpty then m
  else
    let rows := samples.map FeatureVector.toMat
    let k := (samples.headI.toMat).length
    { mean := (List.range k).flatMap (fun a =>
        (List.range k).map (fun b => covarEntry rows a b))
      stdDev := (List.range k).map (fun i => junk i)
      trained := true }

/-- The per-feature arithmetic mean the code intended to store (and the spec
describes): column j of the sample matrix averaged over the samples. -/
def intendedFeatureMean (samples : List FeatureVector) (j : ℕ) : ℚ :=
  colMean (samples.map FeatureVector.toMat) j

/-- Embeds `GaussianModel::scoreAnomaly` (nx_agent_anomaly.cpp lines 92-115):
1.0 if untrained; otherwise the per-feature normalized squared deviation sum
(features with stored sigma ≤ 1e-5 skipped) mapped through
`1 - exp(-sum / (2·k))`, with `std::exp` as the uninterpreted `e`. -/
def GaussianModel.scoreAnomaly (e : ℚ → ℚ) (m : GaussianModel)
    (features : FeatureVector) : ℚ :=
  if m.trained = false then 1
  else
    let mat := features.toMat
    let s := ((List.range mat.length).map (fun i =>
      let sd := m.stdDev.getD i 0
      if sd > 1/100000 then ((mat.getD i 0 - m.mean.getD i 0) / sd) ^ 2
      else 0)).sum
    1 - e (-(s / (2 * (mat.length : ℚ))))

/-- Two concrete training samples whose encoded rows are
`[0,0,0,0,0]` and `[0,0,4,0,0]`: the per-feature mean is `[0,0,2,0,0]`. -/
def trainSampleA : FeatureVector := ⟨0, 0, 0, 0, 0, 0, 0, []⟩

/-- Second training sample, motion level 4. -/
def trainSampleB : FeatureVector := ⟨0, 0, 0, 4, 0, 0, 0, []⟩

/-! ## Model persistence (nx_agent_anomaly.cpp lines 117-155)

`cv::FileStorage` mechanics are an external collaborator; the file is
modelled as the record of the three values written to it. -/

/-- The serialized form of a model: the three entries `saveToFile` writes. -/
structure ModelFile where
  trained : Bool
  mean : List ℚ
  stdDev : List ℚ
deriving Repr, DecidableEq

/-- Embeds `GaussianModel::saveToFile`: when the storage opens, the fields
`trained`, `mean` and `stdDev` are written and the call succeeds; when it
does not open, nothing is written and the call fails. -/
def GaussianModel.saveToFile (m : GaussianModel) (opened : Bool) :
    Option ModelFile :=
  if opened then some ⟨m.trained, m.mean, m.stdDev⟩ else none

/-- Embeds `GaussianModel::loadFromFile`: when the storage opens, the three
fields are read back over the model and the call succeeds; otherwise the
model is untouched and the call fails. -/
def GaussianModel.loadFromFile (m : GaussianModel) (file : Option ModelFile) :
    GaussianModel × Bool :=
  match file with
  | none => (m, false)
  | some f => ({ trained := f.trained, mean := f.mean, stdDev := f.stdDev }, true)

/-! ## Observation model (nx_agent_metadata.h)

The observation record produced by the external analyzer and consumed by the
anomaly engine, the response gate and the strategy manager. -/

/-- Embeds `struct DetectedObject` (pixel bounding box as four integers). -/
structure DetectedObject where
  typeId : String
  confidence : ℚ
  boxX : ℤ
  boxY : ℤ
  boxW : ℤ
  boxH : ℤ
  attributes : List (String × String)
  timestampUs : ℤ
  trackId : String
deriving Repr, DecidableEq, Inhabited

/-- Embeds `struct FrameAnalysisResult`; `motionLevel` is
`motionInfo.overallMotionLevel` (the only motion field the core reads). -/
structure FrameAnalysisResult where
  timestampUs : ℤ
  objects : List DetectedObject
  motionLevel : ℚ
  anomalyScore : ℚ
  anomalyType : String
  anomalyDescription : String
  isAnomaly : Bool
deriving Repr, DecidableEq, Inhabited

/-! ## Anomaly detector (nx_agent_anomaly.cpp lines 157-393)

One detector per camera, 24 per-hour models.  `std::localtime` is an
external, timezone-dependent collaborator: it is modelled by an
uninterpreted parameter `lt : ℤ → LocalTime` shared by `extractFeatures`
and `getHourOfDay`, exactly as both C++ helpers call the same library
function on the observation timestamp. -/

/-- The fields of `std::tm` the detector reads; `tm_hour` is always in
0..23, so it is a `Fin 24`. -/
structure LocalTime where
  hour : Fin 24
  minute : ℕ
  sec : ℕ
  wday : ℕ
deriving Repr, DecidableEq

/-- The slice of `class DeviceConfig` the anomaly detector reads. -/
structure DeviceConfig where
  anomalyThreshold : ℚ
  enableLearning : Bool
deriving Repr, DecidableEq

/-- Embeds the state of `class AnomalyDetector`: per-hour models and
baseline buffers (total over the 24 hour keys the constructor creates),
recent history, threshold and configuration. -/
structure AnomalyDetector where
  config : DeviceConfig
  anomalyThreshold : ℚ
  timeModels : Fin 24 → GaussianModel
  baselineData : Fin 24 → List FeatureVector
  recentHistory : List FeatureVector

/-- Embeds the `AnomalyDetector` constructor in the state where no model
file exists on disk yet: all 24 models default-constructed (untrained), all
buffers empty, threshold taken from the device configuration. -/
def AnomalyDetector.create (cfg : DeviceConfig) : AnomalyDetector :=
  { config := cfg
    anomalyThreshold := cfg.anomalyThreshold
    timeModels := fun _ => GaussianModel.init
    baselineData := fun _ => []
    recentHistory := [] }

/-- Embeds `AnomalyDetector::getHourOfDay`: the `tm_hour` of the local time
of the observation timestamp. -/
def getHourOfDay (lt : ℤ → LocalTime) (timestampUs : ℤ) : Fin 24 :=
  (lt timestampUs).hour

/-- Embeds `AnomalyDetector::extractFeatures` (nx_agent_anomaly.cpp lines
312-355): time-of-day and day-of-week from local time, motion level, counts
of persons / unknown persons / vehicles over the object list, and the
unknown-person ratio as the single additional feature. -/
def AnomalyDetector.extractFeatures (lt : ℤ → LocalTime)
    (r : FrameAnalysisResult) : FeatureVector :=
  let t := lt r.timestampUs
  let personCount : ℤ :=
    (r.objects.filter (fun o => o.typeId == "person")).length
  let unknownPersonCount : ℤ :=
    (r.objects.filter (fun o => o.typeId == "person" &&
      o.attributes.lookup "recognitionStatus" == some "unknown")).length
  let vehicleCount : ℤ :=
    (r.objects.filter (fun o => o.typeId == "vehicle")).length
  { timestampUs := r.timestampUs
    timeOfDaySeconds := (t.hour.val : ℤ) * 3600 + (t.minute : ℤ) * 60 + (t.sec : ℤ)
    dayOfWeek := (t.wday : ℤ)
    motionLevel := r.motionLevel
    personCount := personCount
    unknownPersonCount := unknownPersonCount
    vehicleCount := vehicleCount
    additionalFeatures := [(unknownPersonCount : ℚ) / (max 1 personCount : ℤ)] }

/-- Embeds `AnomalyDetector::detectAnomaly` (nx_agent_anomaly.cpp lines
189-220).  The returned triple is (returned bool, updated observation,
score instrumentation): the third component records the value of the single
`scoreAnomaly` call when one happens, and is `none` when the per-hour model
is untrained and the function returns before scoring. -/
def AnomalyDetector.detectAnomaly (lt : ℤ → LocalTime) (e : ℚ → ℚ)
    (d : AnomalyDetector) (r : FrameAnalysisResult) :
    Bool × FrameAnalysisResult × Option ℚ :=
  let features := AnomalyDetector.extractFeatures lt r
  let hour := getHourOfDay lt r.timestampUs
  let model := d.timeModels hour
  if model.trained = false then (false, r, none)
  else
    let anomalyScore := model.scoreAnomaly e features
    let r1 := { r with anomalyScore := max r.anomalyScore anomalyScore }
    if anomalyScore > d.anomalyThreshold then
      let r2 :=
        if r1.anomalyType = "" then
          { r1 with anomalyType := "StatisticalAnomaly"
                    anomalyDescription := "Activity deviates from normal patterns" }
        else r1
      (true, { r2 with isAnomaly := true }, some anomalyScore)
    else (false, r1, some anomalyScore)

/-- Embeds `AnomalyDetector::trainModels` (nx_agent_anomaly.cpp lines
357-374): every hour whose baseline buffer is non-empty gets its model
retrained on that buffer; the buffers themselves are not touched (the
trailing `saveModel()` only performs file I/O). -/
def AnomalyDetector.trainModels (junk : Fin 24 → ℕ → ℚ)
    (d : AnomalyDetector) : AnomalyDetector :=
  { d with timeModels := fun h =>
      if (d.baselineData h).isEmpty then d.timeModels h
      else (d.timeModels h).train (junk h) (d.baselineData h) }

/-- Closed form of the `while (m_recentHistory.size() > 1000) pop_front()`
loop in `addToBaseline`. -/
def trimHistory (l : List FeatureVector) : List FeatureVector :=
  if 1000 < l.length then l.drop (l.length - 1000) else l

/-- Embeds `AnomalyDetector::addToBaseline` (nx_agent_anomaly.cpp lines
222-247): a no-op unless learning is enabled; otherwise append the extracted
features to the hour's buffer, retrain every model once that buffer has
reached 100 samples, and append to the bounded recent history. -/
def AnomalyDetector.addToBaseline (lt : ℤ → LocalTime)
    (junk : Fin 24 → ℕ → ℚ) (d : AnomalyDetector)
    (r : FrameAnalysisResult) : AnomalyDetector :=
  if d.config.enableLearning = false then d
  else
    let features := AnomalyDetector.extractFeatures lt r
    let hour := getHourOfDay lt r.timestampUs
    let newData :=
      Function.update d.baselineData hour (d.baselineData hour ++ [features])
    let d1 := { d with baselineData := newData }
    let d2 :=
      if 100 ≤ (d1.baselineData hour).length then d1.trainModels junk else d1
    { d2 with recentHistory := trimHistory (d2.recentHistory ++ [features]) }

/-- Concrete observation used by the witnesses: one unknown person, some
motion, no anomaly flags set. -/
def sampleObservation : FrameAnalysisResult :=
  { timestampUs := 1700000000000000
    objects := [{ typeId := "person", confidence := 9/10, boxX := 10,
                  boxY := 20, boxW := 30, boxH := 40,
                  attributes := [("recognitionStatus", "unknown")],
                  timestampUs := 1700000000000000, trackId := "T1" }]
    motionLevel := 1/4
    anomalyScore := 0
    anomalyType := ""
    anomalyDescription := ""
    isAnomaly := false }

/-- Fixed local-time oracle for the witnesses: 14:30:05, a Tuesday. -/
def sampleLocalTime : ℤ → LocalTime := fun _ => ⟨14, 30, 5, 2⟩

/-- A detector whose hour-14 buffer already holds 100 samples but whose
device configuration has learning disabled. -/
def fullBufferDetector : AnomalyDetector :=
  { config := ⟨7/10, false⟩
    anomalyThreshold := 7/10
    timeModels := fun _ => GaussianModel.init
    baselineData := fun h => if h = (14 : Fin 24) then List.replicate 100 trainSampleA else []
    recentHistory := [] }

/-! ## Verification and response gate (nx_agent_response.h / nx_agent_response.cpp)

Times are milliseconds; `duration_cast<seconds>` is truncating division by
1000.  `executeAction` performs external side effects (logging, callbacks,
HTTP, SIP, commands) and only its success bit matters to the protocol state:
it is the uninterpreted parameter `exec`. -/

/-- Embeds `ResponseAction::Type` of nx_agent_response.h. -/
inductive ResponseActionType where
  | logOnly
  | nxEvent
  | httpRequest
  | sipCall
  | executeCommand
deriving Repr, DecidableEq

/-- Embeds `struct ResponseAction`: the defaulted fields carry the header's
default member initializers (`priority = 0`, `cooldownMs = 60000`,
`lastTriggeredTime` at the epoch). -/
structure ResponseAction where
  type : ResponseActionType := ResponseActionType.logOnly
  name : String := ""
  description : String := ""
  target : String := ""
  payload : String := ""
  priority : ℤ := 0
  cooldownMs : ℤ := 60000
  lastTriggeredTime : ℤ := 0
deriving Repr, DecidableEq

/-- Embeds `ResponseProtocol::AnomalyTracker` (consecutiveDetections starts
at 1 by its member initializer). -/
structure AnomalyTracker where
  anomalyType : String
  initialScore : ℚ
  consecutiveDetections : ℤ := 1
  firstDetectedTime : ℤ
  lastDetectedTime : ℤ
  verified : Bool := false
  responded : Bool := false
deriving Repr, DecidableEq

/-- Truncating millisecond-to-second conversion:
`duration_cast<seconds>(last - first).count()`. -/
def msToSec (d : ℤ) : ℤ := truncToInt ((d : ℚ) / 1000)

/-- The tracked duration read by the persistence rule of `verifyAnomaly`:
whole seconds between first and last detection. -/
def trackerDurationSec (t : AnomalyTracker) : ℤ :=
  msToSec (t.lastDetectedTime - t.firstDetectedTime)

/-- Embeds `ResponseProtocol::verifyAnomaly` (nx_agent_response.cpp lines
181-214): already-verified trackers stay verified; otherwise the rules are
tried in order — score > 0.85; score > 0.7 with ≥ 2 consecutive detections;
≥ 3 consecutive detections; persistence of more than 30 whole seconds —
and the first match sets `verified`.  Returns the updated tracker and the
returned bool. -/
def verifyAnomaly (score : ℚ) (t : AnomalyTracker) : AnomalyTracker × Bool :=
  if t.verified then (t, true)
  else if score > 85/100 then ({ t with verified := true }, true)
  else if score > 7/10 ∧ 2 ≤ t.consecutiveDetections then
    ({ t with verified := true }, true)
  else if 3 ≤ t.consecutiveDetections then ({ t with verified := true }, true)
  else if 30 < trackerDurationSec t then ({ t with verified := true }, true)
  else (t, false)

/-- One iteration of the action loop in `ResponseProtocol::triggerResponses`
(nx_agent_response.cpp lines 233-250): skip the action when the elapsed
milliseconds since its last trigger are below its cooldown (result `none`),
otherwise execute it and stamp `lastTriggeredTime` on success (`some true`)
or leave it unstamped on failure (`some false`). -/
def triggerStep (exec : ResponseAction → Bool) (now : ℤ) (a : ResponseAction) :
    ResponseAction × Option Bool :=
  if now - a.lastTriggeredTime < a.cooldownMs then (a, none)
  else if exec a then ({ a with lastTriggeredTime := now }, some true)
  else (a, some false)

/-- Embeds the loop body of `ResponseProtocol::triggerResponses` over a
priority-sorted action list: each action is stepped independently. -/
def triggerResponses (exec : ResponseAction → Bool) (now : ℤ)
    (actions : List ResponseAction) : List (ResponseAction × Option Bool) :=
  actions.map (triggerStep exec now)

/-- Embeds the state of `class ResponseProtocol`: per-type action lists and
the active anomaly trackers (`std::map`s as association lists). -/
structure ResponseProtocolState where
  responseActions : List (String × List ResponseAction)
  activeAnomalies : List (String × AnomalyTracker)
deriving Repr, DecidableEq

/-- Overwrite-insert into an association list, modelling
`std::map::operator[]` assignment. -/
def mapInsert {α : Type} (k : String) (v : α) (l : List (String × α)) :
    List (String × α) :=
  (k, v) :: l.filter (fun p => p.1 ≠ k)

/-- Embeds `ResponseProtocol::cleanupAnomalies` (nx_agent_response.cpp lines
407-424): erase every tracker whose last detection lies more than 120 whole
seconds in the past. -/
def cleanupAnomalies (now : ℤ) (l : List (String × AnomalyTracker)) :
    List (String × AnomalyTracker) :=
  l.filter (fun p => ¬(120 < msToSec (now - p.2.lastDetectedTime)))

/-- The existing-tracker update of `processAnomaly` (nx_agent_response.cpp
lines 115-124): bump consecutive detections, stamp the last-seen time, and
keep the larger of the stored and incoming scores. -/
def updateTracker (now : ℤ) (score : ℚ) (t : AnomalyTracker) : AnomalyTracker :=
  let t1 := { t with consecutiveDetections := t.consecutiveDetections + 1
                     lastDetectedTime := now }
  if score > t1.initialScore then { t1 with initialScore := score } else t1

/-- The fresh tracker built by `processAnomaly` for a first detection
(nx_agent_response.cpp lines 104-113). -/
def newTracker (now : ℤ) (anomalyType : String) (score : ℚ) : AnomalyTracker :=
  { anomalyType := anomalyType
    initialScore := score
    consecutiveDetections := 1
    firstDetectedTime := now
    lastDetectedTime := now
    verified := false
    responded := false }

/-- Embeds the action dispatch of `ResponseProtocol::triggerResponses`
(nx_agent_response.cpp lines 216-251) at the state level: the action list
for the anomaly type (falling back to the `GeneralAnomaly` bucket, and doing
nothing when neither exists) is stepped and written back. -/
def ResponseProtocolState.triggerResponsesFor (exec : ResponseAction → Bool)
    (now : ℤ) (st : ResponseProtocolState) (anomalyType : String) :
    ResponseProtocolState :=
  match st.responseActions.lookup anomalyType with
  | some actions =>
      let stepped := (triggerResponses exec now actions).map Prod.fst
      { st with responseActions :=
          mapInsert anomalyType stepped st.responseActions }
  | none =>
      match st.responseActions.lookup "GeneralAnomaly" with
      | some actions =>
          let stepped := (triggerResponses exec now actions).map Prod.fst
          { st with responseActions :=
              mapInsert "GeneralAnomaly" stepped st.responseActions }
      | none => st

/-- Embeds `ResponseProtocol::processAnomaly` (nx_agent_response.cpp lines
88-137): non-anomalous frames are ignored; otherwise stale trackers are
pruned, the tracker for the frame's anomaly type is created or updated,
`verifyAnomaly` runs on it, and — when it verifies and has not yet been
responded to — the responses fire and `responded` is set. -/
def ResponseProtocolState.processAnomaly (exec : ResponseAction → Bool)
    (now : ℤ) (st : ResponseProtocolState) (r : FrameAnalysisResult) :
    ResponseProtocolState × Bool :=
  if r.isAnomaly = false then (st, false)
  else
    let cleaned := cleanupAnomalies now st.activeAnomalies
    let t0 :=
      match cleaned.lookup r.anomalyType with
      | none => newTracker now r.anomalyType r.anomalyScore
      | some t => updateTracker now r.anomalyScore t
    let v := verifyAnomaly r.anomalyScore t0
    if v.2 && !v.1.responded then
      let st2 : ResponseProtocolState :=
        { responseActions := st.responseActions
          activeAnomalies := mapInsert r.anomalyType
            { v.1 with responded := true } cleaned }
      (st2.triggerResponsesFor exec now v.1.anomalyType, true)
    else
      ({ responseActions := st.responseActions
         activeAnomalies := mapInsert r.anomalyType v.1 cleaned }, false)

/-- A concrete unverified tracker for the witnesses: one earlier detection,
one second ago. -/
def sampleTracker : AnomalyTracker :=
  { anomalyType := "UnknownVisitor"
    initialScore := 1/2
    consecutiveDetections := 1
    firstDetectedTime := 0
    lastDetectedTime := 1000
    verified := false
    responded := false }

/-- A concrete response state holding only `sampleTracker`. -/
def sampleResponseState : ResponseProtocolState :=
  { responseActions := []
    activeAnomalies := [("UnknownVisitor", sampleTracker)] }

/-- A concrete anomalous observation of the same type as `sampleTracker`,
score 0.75. -/
def sampleAnomalyResult : FrameAnalysisResult :=
  { sampleObservation with
      isAnomaly := true
      anomalyType := "UnknownVisitor"
      anomalyScore := 3/4 }

/-- A verified copy of `sampleTracker` in an otherwise empty response
state. -/
def verifiedSampleState : ResponseProtocolState :=
  { responseActions := []
    activeAnomalies :=
      [("UnknownVisitor", { sampleTracker with verified := true })] }

/-- The sample anomalous observation with a very low score (0.1). -/
def lowScoreAnomalyResult : FrameAnalysisResult :=
  { sampleAnomalyResult with anomalyScore := 1/10 }

/-! ## Subject and strategy manager (nx_agent_strategy.h / nx_agent_strategy.cpp)

The incident/plan slice used by claim C7.  Unique-id generation
(`generateUniqueId`, timestamp plus random digits) is represented by the
caller-supplied fresh ids `incId`, `planId` and `freshIds`; the external
reasoning oracle is represented by `llmActions` (`none` = no LLM manager /
failed request ⇒ deterministic fallback; `some acts` = returned action list,
each entry flagged when it is a MONITOR action to be skipped). -/

/-- Embeds `SecurityIncident::Type`. -/
inductive IncidentType where
  | unknownVisitor
  | loitering
  | intrusion
  | crowdFormation
  | unusualMovement
  | suspiciousBehavior
  | abandonedObject
  | trackingLost
  | systemAlert
deriving Repr, DecidableEq

/-- Embeds `SecurityIncident::Severity`. -/
inductive IncidentSeverity where
  | low
  | medium
  | high
  | critical
deriving Repr, DecidableEq

/-- Embeds `SecurityIncident::Status`. -/
inductive IncidentStatus where
  | new
  | investigating
  | confirmed
  | falseAlarm
  | resolved
deriving Repr, DecidableEq

/-- Embeds `StrategicPlan::Status`. -/
inductive PlanStatus where
  | draft
  | active
  | completed
  | cancelled
deriving Repr, DecidableEq

/-- Embeds `MonitoringStrategy::Type`. -/
inductive MonitoringType where
  | passive
  | active
  | priority
  | tracking
deriving Repr, DecidableEq

/-- The status label written into the incident response log by
`SecurityIncident::updateStatus`. -/
def IncidentStatus.label : IncidentStatus → String
  | .new => "NEW"
  | .investigating => "INVESTIGATING"
  | .confirmed => "CONFIRMED"
  | .falseAlarm => "FALSE_ALARM"
  | .resolved => "RESOLVED"

/-- Embeds `SecurityIncident::ResponseAction` (the incident's append-only
response log entry). -/
structure IncidentResponseEntry where
  actionType : String
  description : String
  timestamp : ℤ
  initiatedBy : String
deriving Repr, DecidableEq

/-- Embeds `struct SecurityIncident` (fields the core reads/writes). -/
structure SecurityIncident where
  incidentId : String
  type : IncidentType
  severity : IncidentSeverity
  status : IncidentStatus
  primaryCameraId : String
  relatedSubjectIds : List String := []
  description : String
  startTime : ℤ
  updateTime : ℤ
  resolveTime : ℤ := 0
  responseActions : List IncidentResponseEntry := []
deriving Repr, DecidableEq

/-- Embeds `SecurityIncident::addResponseAction`: append to the log. -/
def SecurityIncident.addResponseAction (now : ℤ) (actionType description
    initiatedBy : String) (inc : SecurityIncident) : SecurityIncident :=
  { inc with responseActions := inc.responseActions ++
      [⟨actionType, description, now, initiatedBy⟩] }

/-- Embeds `SecurityIncident::updateStatus` (nx_agent_strategy.cpp lines
322-355): set the status, stamp the update time, log the change, and stamp
the resolve time on RESOLVED / FALSE_ALARM. -/
def SecurityIncident.updateStatus (now : ℤ) (newStatus : IncidentStatus)
    (updatedBy : String) (inc : SecurityIncident) : SecurityIncident :=
  let inc1 := { inc with status := newStatus, updateTime := now }
  let inc2 := inc1.addResponseAction now "STATUS_CHANGE"
    ("Incident status changed to " ++ newStatus.label) updatedBy
  if newStatus = IncidentStatus.resolved ∨ newStatus = IncidentStatus.falseAlarm
  then { inc2 with resolveTime := now } else inc2

/-- Embeds `SecurityIncident::getRecommendedActions` (nx_agent_strategy.cpp
lines 374-453): a fixed action list per incident type, with two escalation
actions appended for HIGH/CRITICAL severity. -/
def SecurityIncident.getRecommendedActions (inc : SecurityIncident) :
    List String :=
  let base : List String :=
    match inc.type with
    | .unknownVisitor => ["Verify visitor identity", "Check access authorization",
        "Monitor visitor movements"]
    | .loitering => ["Monitor subject behavior",
        "Verify if subject has legitimate business", "Check adjacent cameras"]
    | .intrusion => ["Verify intrusion detection", "Alert security personnel",
        "Initiate area lockdown", "Track intruder movements"]
    | .crowdFormation => ["Monitor crowd size and behavior",
        "Check for authorized gathering", "Alert security if crowd grows"]
    | .unusualMovement => ["Continue tracking subject",
        "Monitor behavior for further anomalies",
        "Check for correlated activities"]
    | .suspiciousBehavior => ["Closely observe behavior",
        "Check for associated objects or activities",
        "Prepare for intervention if behavior escalates"]
    | .abandonedObject => ["Verify object is unattended",
        "Track when and who left the object", "Assess potential threat"]
    | .trackingLost => ["Check adjacent cameras", "Review last known direction",
        "Set up alerts for subject reappearance"]
    | .systemAlert => ["Verify alert details", "Check system status",
        "Follow system alert protocol"]
  let extra : List String :=
    match inc.severity with
    | .high => ["Escalate to supervisor", "Prepare immediate response team"]
    | .critical => ["Escalate to supervisor", "Prepare immediate response team"]
    | _ => []
  base ++ extra

/-- Embeds `struct MonitoringStrategy` (duration kept in minutes). -/
structure MonitoringStrategy where
  subjectId : String
  type : MonitoringType
  priorityScore : ℚ
  cameraIds : List String
  startTime : ℤ
  updateTime : ℤ
  durationMin : ℤ
  reason : String
  samplingRate : ℤ
  enablePrediction : Bool
  alertOnLoss : Bool
  crossCameraTracking : Bool
deriving Repr, DecidableEq

/-- Embeds `StrategicPlan::Action`. -/
structure PlanAction where
  actionId : String
  description : String
  priority : ℤ
  isComplete : Bool
  dueTime : ℤ
  assignedTo : String
deriving Repr, DecidableEq

/-- Embeds `struct StrategicPlan`. -/
structure StrategicPlan where
  planId : String
  incidentId : String
  createTime : ℤ
  updateTime : ℤ
  description : String
  monitoringStrategies : List MonitoringStrategy := []
  actions : List PlanAction := []
  status : PlanStatus := PlanStatus.draft
deriving Repr, DecidableEq

/-- Embeds `StrategicPlan::addMonitoringStrategy`. -/
def StrategicPlan.addMonitoringStrategy (now : ℤ) (s : MonitoringStrategy)
    (p : StrategicPlan) : StrategicPlan :=
  { p with monitoringStrategies := p.monitoringStrategies ++ [s]
           updateTime := now }

/-- Embeds `StrategicPlan::addAction` (nx_agent_strategy.cpp lines 461-481):
append an `ACT-n` action and keep the list sorted by descending priority
(`std::sort` is unstable; the stable merge sort here is one of its allowed
outcomes). -/
def StrategicPlan.addAction (now : ℤ) (description : String) (priority : ℤ)
    (dueTime : ℤ) (p : StrategicPlan) : StrategicPlan :=
  let a : PlanAction :=
    { actionId := "ACT-" ++ toString (p.actions.length + 1)
      description := description
      priority := priority
      isComplete := false
      dueTime := dueTime
      assignedTo := "system" }
  let sorted := (p.actions ++ [a]).mergeSort (fun x y => y.priority ≤ x.priority)
  { p with actions := sorted, updateTime := now }

/-- Embeds the slice of `struct CameraInfo` used by plan generation. -/
structure CameraInfo where
  deviceId : String
  adjacentCameras : List String
deriving Repr, DecidableEq

/-- Embeds `TrackedSubject::PositionRecord`. -/
structure PositionRecord where
  cameraId : String
  normalizedPosition : ℚ × ℚ
  worldPosition : ℚ × ℚ
  timestamp : ℤ
deriving Repr, DecidableEq

/-- Embeds `struct TrackedSubject` (fields the manager reads/writes). -/
structure TrackedSubject where
  trackId : String
  type : String
  firstSeen : ℤ
  lastSeen : ℤ
  isActive : Bool
  threatScore : ℚ
  status : String
  attributes : List (String × String)
  positionHistory : List PositionRecord
  cameraAppearances : List (String × List ℤ)
deriving Repr, DecidableEq

/-- Embeds `TrackedSubject::update` (nx_agent_strategy.cpp lines 19-65):
stamp last-seen, append a position record normalized against the default
1920×1080 frame, log the camera appearance, merge the object's attributes,
and bump the threat score by 0.05 (clamped at 1) for unknown-recognition
subjects. -/
def TrackedSubject.update (now : ℤ) (cameraId : String) (obj : DetectedObject)
    (s : TrackedSubject) : TrackedSubject :=
  let pos : ℚ × ℚ :=
    (((obj.boxX : ℚ) + (obj.boxW : ℚ) / 2) / 1920,
     ((obj.boxY : ℚ) + (obj.boxH : ℚ) / 2) / 1080)
  let entry : PositionRecord := ⟨cameraId, pos, pos, now⟩
  let appearances :=
    match s.cameraAppearances.lookup cameraId with
    | some ts => mapInsert cameraId (ts ++ [now]) s.cameraAppearances
    | none => mapInsert cameraId [now] s.cameraAppearances
  let s1 := { s with
    lastSeen := now
    isActive := true
    positionHistory := s.positionHistory ++ [entry]
    cameraAppearances := appearances
    attributes := obj.attributes.foldl
      (fun acc kv => mapInsert kv.1 kv.2 acc) s.attributes }
  if s1.attributes.lookup "recognitionStatus" = some "unknown" then
    { s1 with threatScore := min (s1.threatScore + 5/100) 1 }
  else s1

/-- Embeds `StrategyManager::matchObjectToSubject` (nx_agent_strategy.cpp
lines 1013-1028): tracking-id equality only. -/
def matchObjectToSubject (subjects : List (String × TrackedSubject))
    (obj : DetectedObject) : String :=
  if obj.trackId ≠ "" then
    match subjects.lookup obj.trackId with
    | some _ => obj.trackId
    | none => ""
  else ""

/-- Embeds `StrategyManager::createTrackedSubject` (nx_agent_strategy.cpp
lines 1030-1062); `freshId` stands in for `generateUniqueId("SUBJ")`. -/
def createTrackedSubject (now : ℤ) (freshId : String) (cameraId : String)
    (obj : DetectedObject) (subjects : List (String × TrackedSubject)) :
    String × List (String × TrackedSubject) :=
  let tid := if obj.trackId ≠ "" then obj.trackId else freshId
  let s0 : TrackedSubject :=
    { trackId := tid
      type := obj.typeId
      firstSeen := now
      lastSeen := now
      isActive := true
      threatScore := 0
      status := "tracking"
      attributes := obj.attributes.foldl
        (fun acc kv => mapInsert kv.1 kv.2 acc) []
      positionHistory := []
      cameraAppearances := [] }
  let s1 := s0.update now cameraId obj
  (tid, mapInsert tid s1 subjects)

/-- Embeds `StrategyManager::updateTrackedSubject` (nx_agent_strategy.cpp
lines 662-685): people and vehicles only; match by tracking id, create on
no match, then update the stored subject with the detection. -/
def updateTrackedSubjectOp (now : ℤ) (freshId : String) (cameraId : String)
    (obj : DetectedObject) (subjects : List (String × TrackedSubject)) :
    List (String × TrackedSubject) :=
  if obj.typeId ≠ "person" ∧ obj.typeId ≠ "vehicle" then subjects
  else
    let m := matchObjectToSubject subjects obj
    let matched := if m = "" then
        createTrackedSubject now freshId cameraId obj subjects
      else (m, subjects)
    match matched.2.lookup matched.1 with
    | some s => mapInsert matched.1 (s.update now cameraId obj) matched.2
    | none => matched.2

/-- Embeds the state of `class StrategyManager`: camera topology, tracked
subjects, incidents and plans. -/
structure StrategyManagerState where
  cameras : List (String × CameraInfo)
  subjects : List (String × TrackedSubject)
  incidents : List (String × SecurityIncident)
  plans : List (String × StrategicPlan)
deriving Repr, DecidableEq

/-- Embeds `StrategyManager::getAdjacentCameras`. -/
def getAdjacentCameras (cams : List (String × CameraInfo))
    (cameraId : String) : List String :=
  match cams.lookup cameraId with
  | some c => c.adjacentCameras
  | none => []

/-- Embeds `StrategyManager::generatePlanWithLLM` (nx_agent_strategy.cpp
lines 1064-1200): an ACTIVE plan linked to the incident, a default ACTIVE
monitoring strategy over the primary camera and its neighbors, then either
the oracle's non-monitor actions (`some acts`, each entry `(isMonitor,
description)`, priority `10 - i`, due `now + i·5 min`) or the fallback
recommended-action list with the same priority/due-time scheme. -/
def generatePlanWithLLM (now : ℤ) (planId : String)
    (cams : List (String × CameraInfo))
    (llmActions : Option (List (Bool × String)))
    (incident : SecurityIncident) : StrategicPlan :=
  let plan0 : StrategicPlan :=
    { planId := planId
      incidentId := incident.incidentId
      createTime := now
      updateTime := now
      description := "Response plan for " ++ incident.description
      monitoringStrategies := []
      actions := []
      status := PlanStatus.active }
  let strat : MonitoringStrategy :=
    { subjectId := ""
      type := MonitoringType.active
      priorityScore := 7/10
      cameraIds := incident.primaryCameraId ::
        getAdjacentCameras cams incident.primaryCameraId
      startTime := now
      updateTime := now
      durationMin := 30
      reason := "Incident response"
      samplingRate := 5
      enablePrediction := true
      alertOnLoss := true
      crossCameraTracking := true }
  let plan1 := plan0.addMonitoringStrategy now strat
  match llmActions with
  | some acts =>
      acts.enum.foldl (fun p pair =>
        if pair.2.1 then p
        else p.addAction now pair.2.2 (10 - (pair.1 : ℤ))
          (now + (pair.1 : ℤ) * 300000)) plan1
  | none =>
      incident.getRecommendedActions.enum.foldl (fun p pair =>
        p.addAction now pair.2 (10 - (pair.1 : ℤ))
          (now + (pair.1 : ℤ) * 300000)) plan1

/-- Embeds `StrategyManager::generatePlan` (nx_agent_strategy.cpp lines
744-761): look the incident up, build the plan, store it under its id. -/
def StrategyManagerState.generatePlan (now : ℤ) (planId : String)
    (llmActions : Option (List (Bool × String)))
    (st : StrategyManagerState) (incidentId : String) : StrategyManagerState :=
  match st.incidents.lookup incidentId with
  | none => st
  | some inc =>
      let plan := generatePlanWithLLM now planId st.cameras llmActions inc
      { st with plans := mapInsert plan.planId plan st.plans }

/-- Embeds `StrategyManager::createIncident` (nx_agent_strategy.cpp lines
687-714): build a NEW incident, log its creation, store it, and generate an
initial plan for it within the same call. -/
def StrategyManagerState.createIncident (now : ℤ) (incId planId : String)
    (llmActions : Option (List (Bool × String)))
    (st : StrategyManagerState) (type : IncidentType)
    (severity : IncidentSeverity) (cameraId description : String) :
    String × StrategyManagerState :=
  let inc0 : SecurityIncident :=
    { incidentId := incId
      type := type
      severity := severity
      status := IncidentStatus.new
      primaryCameraId := cameraId
      description := description
      startTime := now
      updateTime := now }
  let inc1 := inc0.addResponseAction now "INCIDENT_CREATED"
    "Incident created automatically by system" "system"
  let st1 := { st with incidents := mapInsert incId inc1 st.incidents }
  (incId, st1.generatePlan now planId llmActions incId)

/-- Truncating millisecond-to-minute conversion
(`duration_cast<minutes>`). -/
def msToMin (d : ℤ) : ℤ := truncToInt ((d : ℚ) / 60000)

/-- Truncating millisecond-to-hour conversion (`duration_cast<hours>`). -/
def msToHour (d : ℤ) : ℤ := truncToInt ((d : ℚ) / 3600000)

/-- The per-incident pass of `cleanupOldData`: force-resolve an unresolved
incident untouched for more than 30 whole minutes. -/
def resolveOldIncident (now : ℤ) (inc : SecurityIncident) : SecurityIncident :=
  if inc.status ≠ IncidentStatus.resolved ∧
      inc.status ≠ IncidentStatus.falseAlarm ∧
      30 < msToMin (now - inc.updateTime) then
    inc.updateStatus now IncidentStatus.resolved "system_timeout"
  else inc

/-- Embeds `StrategyManager::cleanupOldData` (nx_agent_strategy.cpp lines
1272-1335): drop subjects idle over 10 minutes, force-resolve stale
incidents, and drop non-ACTIVE plans older than 24 hours. -/
def StrategyManagerState.cleanupOldData (now : ℤ) (st : StrategyManagerState) :
    StrategyManagerState :=
  { st with
    subjects := st.subjects.filter
      (fun p => ¬(10 < msToMin (now - p.2.lastSeen)))
    incidents := st.incidents.map (fun p => (p.1, resolveOldIncident now p.2))
    plans := st.plans.filter (fun p =>
      ¬(24 < msToHour (now - p.2.createTime) ∧ p.2.status ≠ PlanStatus.active)) }

/-- The incident-type mapping of `processAnalysisResult`
(nx_agent_strategy.cpp lines 617-631): default SUSPICIOUS_BEHAVIOR. -/
def incidentTypeOf (anomalyType : String) : IncidentType :=
  if anomalyType = "UnknownVisitor" then IncidentType.unknownVisitor
  else if anomalyType = "Loitering" then IncidentType.loitering
  else if anomalyType = "Intrusion" then IncidentType.intrusion
  else if anomalyType = "CrowdFormation" then IncidentType.crowdFormation
  else if anomalyType = "AbnormalMovement" then IncidentType.unusualMovement
  else if anomalyType = "AbandonedObject" then IncidentType.abandonedObject
  else IncidentType.suspiciousBehavior

/-- The severity bucket of `processAnalysisResult` (nx_agent_strategy.cpp
lines 634-643). -/
def severityFromScore (score : ℚ) : IncidentSeverity :=
  if score > 85/100 then IncidentSeverity.critical
  else if score > 7/10 then IncidentSeverity.high
  else if score > 1/2 then IncidentSeverity.medium
  else IncidentSeverity.low

/-- Embeds `StrategyManager::processAnalysisResult` (nx_agent_strategy.cpp
lines 608-660): update tracked subjects from the object list; on an
anomalous frame map the anomaly to an incident type and severity bucket and
open an incident (which generates its plan); then run the cleanup sweep
(`updateMonitoringStrategies`, `checkCrossCameraCorrelations` and
`updateSecurityState` are placeholder no-ops in the source). -/
def StrategyManagerState.processAnalysisResult (now : ℤ)
    (freshIds : ℕ → String) (incId planId : String)
    (llmActions : Option (List (Bool × String)))
    (st : StrategyManagerState) (cameraId : String)
    (r : FrameAnalysisResult) : StrategyManagerState :=
  let newSubjects :=
    r.objects.enum.foldl (fun subs pair =>
      updateTrackedSubjectOp now (freshIds pair.1) cameraId pair.2 subs)
      st.subjects
  let st1 := { st with subjects := newSubjects }
  let st2 :=
    if r.isAnomaly then
      (st1.createIncident now incId planId llmActions
        (incidentTypeOf r.anomalyType) (severityFromScore r.anomalyScore)
        cameraId r.anomalyDescription).2
    else st1
  st2.cleanupOldData now

/-- A concrete one-camera topology state with nothing tracked, for the C7
witness. -/
def emptyStrategyState : StrategyManagerState :=
  { cameras := [("cam1", ⟨"cam1", ["cam2"]⟩)]
    subjects := []
    incidents := []
    plans := [] }

/-! ## Cognitive core task queue (nx_agent_reasoning.h lines 314-332 /
nx_agent_reasoning.cpp lines 750-794)

`m_taskQueue` is a `std::queue<Task>`: every producer pushes to the back
(`m_taskQueue.push`), the single worker pops from the front
(`front()` / `pop()`).  The worker is the only consumer, and a task's
execution (`executeTask`) never touches the queue ordering — failures are
caught and logged.  The state records, as instrumentation, the tasks handed
to `executeTask` in order. -/

/-- Embeds `ReasoningSystem::Task::Type`. -/
inductive TaskType where
  | processAnalysis
  | updateKnowledge
  | evaluateGoals
  | selectActions
  | executeAction
  | reflect
deriving Repr, DecidableEq

/-- Embeds `ReasoningSystem::Task`: type, JSON payload (modelled as a
key-value list), creation timestamp, and the advisory priority recorded on
enqueue. -/
structure Task where
  type : TaskType
  parameters : List (String × String)
  creationTimeUs : ℤ
  priority : ℤ
deriving Repr, DecidableEq

/-- The queue-related state of `ReasoningSystem`: the pending queue (front
at the head), the running flag, and the ordered log of executed tasks. -/
structure ReasoningQueueState where
  taskQueue : List Task
  running : Bool
  executed : List Task
deriving Repr, DecidableEq

/-- Embeds the `m_taskQueue.push(task)` pattern used by every producer
site: append at the back. -/
def enqueueTask (s : ReasoningQueueState) (t : Task) : ReasoningQueueState :=
  { s with taskQueue := s.taskQueue ++ [t] }

/-- Embeds `ReasoningSystem::workerFunction` run until the queue is empty
(at which point the worker blocks on the condition variable): while
running, pop the front task and execute it; execution failures are caught
and cannot reorder anything. -/
def workerDrain (s : ReasoningQueueState) : ReasoningQueueState :=
  if s.running = false then s
  else
    match hq : s.taskQueue with
    | [] => s
    | t :: rest =>
        workerDrain { s with taskQueue := rest, executed := s.executed ++ [t] }
termination_by s.taskQueue.length
decreasing_by simp [hq]

/-! ## Theorems settling the claims -/

/-- Truncation toward zero is the identity on integers. -/
@[simp] theorem truncToInt_intCast (n : ℤ) : truncToInt (n : ℚ) = n := by
  unfold truncToInt
  split <;> simp

/-- C3, counterexample: the encode/decode pair is not a round-trip identity on
every field. Two distinct feature vectors (differing in `timestampUs` and
`unknownPersonCount`) encode to the same matrix, and decoding the encoding of
`fvWithTimestamp` does not reproduce it: `toMat` never writes those two
fields, so `fromMat` cannot recover them. -/
theorem featureVector_roundTrip_counterexample :
    fvWithTimestamp.toMat = fvWithTimestampB.toMat ∧
    fvWithTimestamp ≠ fvWithTimestampB ∧
    FeatureVector.fromMat fvWithTimestamp.toMat ≠ fvWithTimestamp := by
  refine ⟨rfl, by decide, ?_⟩
  intro h
  have := congrArg FeatureVector.timestampUs h
  simp [FeatureVector.fromMat, fvWithTimestamp] at this

/-- C3, amended: the encode/decode pair is a round-trip identity on every
field that `toMat` actually encodes (time-of-day seconds, day-of-week,
motion level, person count, vehicle count and the additional-feature tail,
under exact arithmetic), while `timestampUs` and `unknownPersonCount` are
not encoded and come back as the decoder's defaults. -/
theorem featureVector_roundTrip_encoded_fields (v : FeatureVector) :
    (FeatureVector.fromMat v.toMat).timeOfDaySeconds = v.timeOfDaySeconds ∧
    (FeatureVector.fromMat v.toMat).dayOfWeek = v.dayOfWeek ∧
    (FeatureVector.fromMat v.toMat).motionLevel = v.motionLevel ∧
    (FeatureVector.fromMat v.toMat).personCount = v.personCount ∧
    (FeatureVector.fromMat v.toMat).vehicleCount = v.vehicleCount ∧
    (FeatureVector.fromMat v.toMat).additionalFeatures = v.additionalFeatures ∧
    (FeatureVector.fromMat v.toMat).timestampUs = 0 ∧
    (FeatureVector.fromMat v.toMat).unknownPersonCount = 0 := by
  have h86400 : ((86400 : ℚ)) ≠ 0 := by norm_num
  have h7 : ((7 : ℚ)) ≠ 0 := by norm_num
  refine ⟨?_, ?_, ?_, ?_, ?_, ?_, rfl, rfl⟩ <;>
    simp [FeatureVector.fromMat, FeatureVector.toMat, List.getD,
      div_mul_cancel₀, h86400, h7]

/-- C2: evaluation of `GaussianModel::train` as written at the failing
input.  Training on the two samples above (per-feature mean `[0,0,2,0,0]`)
leaves in `m_mean` the flattened 5×5 covariance matrix: 25 entries rather
than 5, entry 2 equal to 0, and entry 12 (= diagonal entry (2,2)) equal to
the variance 4 — not the arithmetic mean 2 of feature 2, which the claim
(and the code's own comment "Calculate mean and standard deviation for each
feature") requires.  The `stdDev` field is read from uninitialized memory
(here instantiated to the arbitrary value 0). -/
theorem gaussianModel_train_stores_covariance :
    (GaussianModel.init.train (fun _ => 0) [trainSampleA, trainSampleB]).mean.length = 25 ∧
    (GaussianModel.init.train (fun _ => 0) [trainSampleA, trainSampleB]).mean.getD 2 0 = 0 ∧
    (GaussianModel.init.train (fun _ => 0) [trainSampleA, trainSampleB]).mean.getD 12 0 = 4 ∧
    intendedFeatureMean [trainSampleA, trainSampleB] 2 = 2 := by
  refine ⟨?_, ?_, ?_, ?_⟩ <;>
    norm_num [GaussianModel.train, GaussianModel.init, covarEntry, colMean,
      intendedFeatureMean, trainSampleA, trainSampleB, FeatureVector.toMat,
      List.range_succ]

/-- C9: persistence round-trip.  For every trained model `m`, a successful
`saveToFile` followed by `loadFromFile` on any fresh model yields a model
with identical `mean` and `stdDev` vectors and `isTrained() = true`, and the
load reports success. -/
theorem gaussianModel_save_load_roundTrip (m fresh : GaussianModel)
    (htr : m.trained = true) :
    (fresh.loadFromFile (m.saveToFile true)).1 = m ∧
    (fresh.loadFromFile (m.saveToFile true)).1.trained = true ∧
    (fresh.loadFromFile (m.saveToFile true)).2 = true := by
  obtain ⟨mm, ms, mt⟩ := m
  subst htr
  simp [GaussianModel.saveToFile, GaussianModel.loadFromFile]

/-- C9, witness: the round-trip theorem applied to a concrete trained model. -/
theorem gaussianModel_save_load_roundTrip_witness :
    ((GaussianModel.mk [1, 2] [3, 4] true).loadFromFile
      ((GaussianModel.mk [1, 2] [3, 4] true).saveToFile true)).1
      = GaussianModel.mk [1, 2] [3, 4] true :=
  (gaussianModel_save_load_roundTrip (GaussianModel.mk [1, 2] [3, 4] true)
    GaussianModel.init rfl).1

/-- C1: on any observation whose hour-of-day slot holds an untrained model
(in particular on a freshly created detector, for every hour), `detectAnomaly`
returns `false`, leaves the observation exactly as it was, and never invokes
`scoreAnomaly` — so the untrained branch of `GaussianModel::scoreAnomaly`
(score 1.0) is unreachable through `detectAnomaly`. -/
theorem detectAnomaly_untrained_not_anomalous (lt : ℤ → LocalTime)
    (e : ℚ → ℚ) (d : AnomalyDetector) (r : FrameAnalysisResult)
    (h : (d.timeModels (getHourOfDay lt r.timestampUs)).trained = false) :
    d.detectAnomaly lt e r = (false, r, none) := by
  simp [AnomalyDetector.detectAnomaly, h]

/-- C1, witness: the untrained theorem applied to a freshly created detector
(all 24 slots untrained) and the concrete observation. -/
theorem detectAnomaly_untrained_not_anomalous_witness :
    (AnomalyDetector.create ⟨7/10, true⟩).detectAnomaly sampleLocalTime
      (fun q => q) sampleObservation = (false, sampleObservation, none) :=
  detectAnomaly_untrained_not_anomalous sampleLocalTime (fun q => q)
    (AnomalyDetector.create ⟨7/10, true⟩) sampleObservation rfl

/-- C10, counterexample: with learning disabled, an `addToBaseline` call for
an hour whose buffer has already reached 100 samples is a complete no-op —
it triggers no retraining (hour 14 keeps an untrained model and its buffer
stays at 100 samples), refuting the claim that every subsequent
`addToBaseline` call for such an hour triggers retraining of all hours with
non-empty buffers. -/
theorem addToBaseline_full_buffer_counterexample :
    (fullBufferDetector.addToBaseline sampleLocalTime (fun _ _ => 0)
      sampleObservation) = fullBufferDetector ∧
    100 ≤ (fullBufferDetector.baselineData
      (getHourOfDay sampleLocalTime sampleObservation.timestampUs)).length ∧
    ((fullBufferDetector.addToBaseline sampleLocalTime (fun _ _ => 0)
      sampleObservation).timeModels (14 : Fin 24)).trained = false := by
  refine ⟨rfl, ?_, rfl⟩
  simp [fullBufferDetector, getHourOfDay, sampleLocalTime]

/-- C10, amended: training never consumes the accumulation buffers —
`trainModels` leaves every hour's buffer unchanged, each hour's buffer size
is non-decreasing across `addToBaseline` calls, and, provided learning is
enabled, once an hour's buffer has reached 100 samples every subsequent
`addToBaseline` call for that hour retrains all hours with non-empty
buffers on their (unconsumed) buffers. -/
theorem addToBaseline_buffers_monotone_and_retrain (lt : ℤ → LocalTime)
    (junk : Fin 24 → ℕ → ℚ) (d : AnomalyDetector) (r : FrameAnalysisResult) :
    ((d.trainModels junk).baselineData = d.baselineData) ∧
    (∀ h, (d.baselineData h).length ≤
      ((d.addToBaseline lt junk r).baselineData h).length) ∧
    (d.config.enableLearning = true →
      100 ≤ (d.baselineData (getHourOfDay lt r.timestampUs)).length →
      ∀ h, (d.addToBaseline lt junk r).baselineData h ≠ [] →
        ((d.addToBaseline lt junk r).timeModels h) =
          ((d.timeModels h).train (junk h)
            ((d.addToBaseline lt junk r).baselineData h))) := by
  refine ⟨rfl, ?_, ?_⟩
  · intro h
    by_cases hl : d.config.enableLearning = false
    · simp [AnomalyDetector.addToBaseline, hl]
    · have hl2 : d.config.enableLearning = true := by
        revert hl; cases d.config.enableLearning <;> simp
      have hbase : (d.addToBaseline lt junk r).baselineData =
          Function.update d.baselineData (getHourOfDay lt r.timestampUs)
            (d.baselineData (getHourOfDay lt r.timestampUs) ++
              [AnomalyDetector.extractFeatures lt r]) := by
        simp only [AnomalyDetector.addToBaseline, hl2, Bool.true_eq_false,
          if_false]
        split <;> rfl
      rw [hbase, Function.update_apply]
      by_cases hh : h = getHourOfDay lt r.timestampUs
      · subst hh; simp
      · simp [hh]
  · intro hl hfull h hne
    have hcond : 100 ≤ ((Function.update d.baselineData
        (getHourOfDay lt r.timestampUs)
        (d.baselineData (getHourOfDay lt r.timestampUs) ++
          [AnomalyDetector.extractFeatures lt r]))
        (getHourOfDay lt r.timestampUs)).length := by
      rw [Function.update_same, List.length_append]
      omega
    simp only [AnomalyDetector.addToBaseline, hl, Bool.true_eq_false,
      if_false] at hne ⊢
    rw [if_pos hcond] at hne ⊢
    simp only [AnomalyDetector.trainModels] at hne ⊢
    rw [if_neg]
    simpa using hne

/-- C10, amended, witness: the amended theorem applied to a learning-enabled
detector with a full hour-14 buffer; the hour-14 model after the call is the
model retrained on the pushed buffer. -/
theorem addToBaseline_buffers_monotone_and_retrain_witness :
    (({ fullBufferDetector with config := ⟨7/10, true⟩ }).addToBaseline
        sampleLocalTime (fun _ _ => 0) sampleObservation).timeModels
        (14 : Fin 24) =
      GaussianModel.init.train ((fun _ _ => 0) (14 : Fin 24))
        ((({ fullBufferDetector with config := ⟨7/10, true⟩ }).addToBaseline
          sampleLocalTime (fun _ _ => 0) sampleObservation).baselineData
          (14 : Fin 24)) := by
  have h := (addToBaseline_buffers_monotone_and_retrain sampleLocalTime
    (fun _ _ => 0) ({ fullBufferDetector with config := ⟨7/10, true⟩ })
    sampleObservation).2.2 rfl
    (by simp [fullBufferDetector, getHourOfDay, sampleLocalTime])
    (14 : Fin 24)
    (by simp [AnomalyDetector.addToBaseline, fullBufferDetector,
      AnomalyDetector.trainModels, getHourOfDay, sampleLocalTime])
  simpa [fullBufferDetector] using h

/-- Lookup after an overwrite-insert finds the inserted value. -/
theorem lookup_mapInsert_self {α : Type} (k : String) (v : α)
    (l : List (String × α)) : (mapInsert k v l).lookup k = some v := by
  have hb : (k == k) = true := by simp
  simp [mapInsert, List.lookup, hb]

/-- One unfolding step of the pruning filter. -/
theorem cleanupAnomalies_cons (now : ℤ) (k0 : String) (t0 : AnomalyTracker)
    (rest : List (String × AnomalyTracker)) :
    cleanupAnomalies now ((k0, t0) :: rest) =
      if 120 < msToSec (now - t0.lastDetectedTime) then
        cleanupAnomalies now rest
      else (k0, t0) :: cleanupAnomalies now rest := by
  simp only [cleanupAnomalies, List.filter_cons]
  by_cases hc : 120 < msToSec (now - t0.lastDetectedTime) <;> simp [hc]

/-- Pruning keeps the looked-up tracker unchanged when its last detection is
at most 120 whole seconds old. -/
theorem lookup_cleanupAnomalies (now : ℤ)
    (l : List (String × AnomalyTracker)) (k : String) (t : AnomalyTracker)
    (h : l.lookup k = some t)
    (halive : msToSec (now - t.lastDetectedTime) ≤ 120) :
    (cleanupAnomalies now l).lookup k = some t := by
  induction l with
  | nil => simp at h
  | cons p rest ih =>
    obtain ⟨k0, t0⟩ := p
    rw [cleanupAnomalies_cons]
    by_cases hk : k = k0
    · subst hk
      have hb : (k == k) = true := by simp
      simp only [List.lookup, hb] at h
      obtain rfl : t0 = t := by simpa using h
      rw [if_neg (by omega)]
      simp [List.lookup, hb]
    · have hb : (k == k0) = false := by simp [hk]
      simp only [List.lookup, hb] at h
      have hrec := ih h
      by_cases hkeep : 120 < msToSec (now - t0.lastDetectedTime)
      · rw [if_pos hkeep]; exact hrec
      · rw [if_neg hkeep]
        simpa [List.lookup, hb] using hrec

/-- The verification rules of `verifyAnomaly` on a not-yet-verified tracker:
the returned flag matches the stored flag, verification happens exactly when
one of the four ordered rules matches, and a tracker that stays unverified
is returned unchanged. -/
theorem verifyAnomaly_spec (score : ℚ) (t : AnomalyTracker)
    (hV : t.verified = false) :
    ((verifyAnomaly score t).1.verified = true ↔
      (85/100 < score ∨ (7/10 < score ∧ 2 ≤ t.consecutiveDetections) ∨
       3 ≤ t.consecutiveDetections ∨ 30 < trackerDurationSec t)) ∧
    ((verifyAnomaly score t).2 = (verifyAnomaly score t).1.verified) ∧
    ((verifyAnomaly score t).1.verified = false →
      (verifyAnomaly score t).1 = t) ∧
    (verifyAnomaly score t).1.responded = t.responded := by
  simp only [verifyAnomaly, hV]
  split_ifs with h1 h2 h3 h4 <;> simp_all

/-- `updateTracker` does not touch the `verified` and `responded` flags and
bumps the consecutive-detection count by one. -/
theorem updateTracker_flags (now : ℤ) (score : ℚ) (t : AnomalyTracker) :
    (updateTracker now score t).verified = t.verified ∧
    (updateTracker now score t).responded = t.responded ∧
    (updateTracker now score t).consecutiveDetections =
      t.consecutiveDetections + 1 := by
  simp only [updateTracker]
  split <;> simp

/-- `verifyAnomaly` on an already-verified tracker is the identity with a
positive verdict. -/
theorem verifyAnomaly_verified (score : ℚ) (t : AnomalyTracker)
    (hV : t.verified = true) : verifyAnomaly score t = (t, true) := by
  simp [verifyAnomaly, hV]

/-- Dispatching responses touches only the action lists, never the
trackers. -/
theorem triggerResponsesFor_activeAnomalies (exec : ResponseAction → Bool)
    (now : ℤ) (st : ResponseProtocolState) (ty : String) :
    (st.triggerResponsesFor exec now ty).activeAnomalies =
      st.activeAnomalies := by
  unfold ResponseProtocolState.triggerResponsesFor
  split
  · rfl
  · split <;> rfl

/-- Unfolding of `processAnomaly` on an anomalous frame whose type already
has a tracker surviving cleanup. -/
theorem processAnomaly_existing_eq (exec : ResponseAction → Bool) (now : ℤ)
    (st : ResponseProtocolState) (r : FrameAnalysisResult)
    (t : AnomalyTracker) (hA : r.isAnomaly = true)
    (hT : (cleanupAnomalies now st.activeAnomalies).lookup r.anomalyType =
      some t) :
    st.processAnomaly exec now r =
      (if (verifyAnomaly r.anomalyScore (updateTracker now r.anomalyScore t)).2
          && !(verifyAnomaly r.anomalyScore
                (updateTracker now r.anomalyScore t)).1.responded then
        (ResponseProtocolState.triggerResponsesFor exec now
          ⟨st.responseActions,
           mapInsert r.anomalyType
             { (verifyAnomaly r.anomalyScore
                 (updateTracker now r.anomalyScore t)).1 with responded := true }
             (cleanupAnomalies now st.activeAnomalies)⟩
          (verifyAnomaly r.anomalyScore
            (updateTracker now r.anomalyScore t)).1.anomalyType, true)
      else
        (⟨st.responseActions,
          mapInsert r.anomalyType
            (verifyAnomaly r.anomalyScore
              (updateTracker now r.anomalyScore t)).1
            (cleanupAnomalies now st.activeAnomalies)⟩, false)) := by
  simp only [ResponseProtocolState.processAnomaly, hA, hT,
    Bool.true_eq_false, if_false]

/-- C4: on an anomalous frame whose unverified tracker survives cleanup,
`processAnomaly` verifies the tracker exactly when one of the ordered rules
matches on the updated tracker — score > 0.85; score > 0.7 with at least 2
consecutive detections; at least 3 consecutive detections; persistence of
more than 30 seconds between first and last detection — and otherwise the
tracker is stored back unverified and unchanged, the call reports `false`,
and no response action list is touched (no responses fire). -/
theorem processAnomaly_verification_rules (exec : ResponseAction → Bool)
    (now : ℤ) (st : ResponseProtocolState) (r : FrameAnalysisResult)
    (t : AnomalyTracker) (hA : r.isAnomaly = true)
    (hT : (cleanupAnomalies now st.activeAnomalies).lookup r.anomalyType =
      some t)
    (hV : t.verified = false) :
    ∃ tF, (st.processAnomaly exec now r).1.activeAnomalies.lookup
        r.anomalyType = some tF ∧
      (tF.verified = true ↔
        (85/100 < r.anomalyScore ∨
         (7/10 < r.anomalyScore ∧ 2 ≤ t.consecutiveDetections + 1) ∨
         3 ≤ t.consecutiveDetections + 1 ∨
         30 < trackerDurationSec (updateTracker now r.anomalyScore t))) ∧
      (tF.verified = false →
        tF = updateTracker now r.anomalyScore t ∧
        (st.processAnomaly exec now r).2 = false ∧
        (st.processAnomaly exec now r).1.responseActions =
          st.responseActions) := by
  have hupd := updateTracker_flags now r.anomalyScore t
  have hupdV : (updateTracker now r.anomalyScore t).verified = false := by
    rw [hupd.1]; exact hV
  obtain ⟨hiff, hflag, hunch, _⟩ :=
    verifyAnomaly_spec r.anomalyScore (updateTracker now r.anomalyScore t)
      hupdV
  rw [hupd.2.2] at hiff
  have heq := processAnomaly_existing_eq exec now st r t hA hT
  by_cases hfl :
      (verifyAnomaly r.anomalyScore (updateTracker now r.anomalyScore t)).2
  · by_cases hrsp :
        (verifyAnomaly r.anomalyScore
          (updateTracker now r.anomalyScore t)).1.responded
    · refine ⟨(verifyAnomaly r.anomalyScore
        (updateTracker now r.anomalyScore t)).1, ?_, ?_, ?_⟩
      · rw [heq, if_neg (by simp [hfl, hrsp])]
        exact lookup_mapInsert_self _ _ _
      · exact hiff
      · intro hvf
        rw [hflag] at hfl
        simp [hvf] at hfl
    · refine ⟨{ (verifyAnomaly r.anomalyScore
          (updateTracker now r.anomalyScore t)).1 with responded := true },
        ?_, ?_, ?_⟩
      · rw [heq, if_pos (by simp [hfl, hrsp]),
          triggerResponsesFor_activeAnomalies]
        exact lookup_mapInsert_self _ _ _
      · exact hiff
      · intro hvf
        have hvf2 : (verifyAnomaly r.anomalyScore
            (updateTracker now r.anomalyScore t)).1.verified = false := hvf
        rw [hflag] at hfl
        simp [hvf2] at hfl
  · have hfl2 : (verifyAnomaly r.anomalyScore
        (updateTracker now r.anomalyScore t)).2 = false := by
      revert hfl
      cases (verifyAnomaly r.anomalyScore
        (updateTracker now r.anomalyScore t)).2 <;> simp
    refine ⟨(verifyAnomaly r.anomalyScore
      (updateTracker now r.anomalyScore t)).1, ?_, ?_, ?_⟩
    · rw [heq, if_neg (by simp [hfl2])]
      exact lookup_mapInsert_self _ _ _
    · exact hiff
    · intro _
      refine ⟨hunch (by rw [← hflag, hfl2]), ?_, ?_⟩ <;>
        rw [heq, if_neg (by simp [hfl2])]

/-- C4, witness: the rules theorem applied to `sampleTracker` (one prior
detection) and a score-0.75 frame: the second detection makes two
consecutive detections with score above 0.7, so the stored tracker is
verified. -/
theorem processAnomaly_verification_rules_witness :
    ∃ tF, ((sampleResponseState.processAnomaly (fun _ => true) 2000
        sampleAnomalyResult).1.activeAnomalies.lookup "UnknownVisitor" =
        some tF) ∧ tF.verified = true := by
  obtain ⟨tF, hfind, hiff, -⟩ :=
    processAnomaly_verification_rules (fun _ => true) 2000
      sampleResponseState sampleAnomalyResult sampleTracker rfl
      (by norm_num [cleanupAnomalies, sampleResponseState, sampleAnomalyResult,
        sampleTracker, msToSec, truncToInt, List.lookup])
      rfl
  exact ⟨tF, hfind, hiff.mpr (Or.inr (Or.inl (by
    constructor
    · norm_num [sampleAnomalyResult, sampleObservation]
    · norm_num [sampleTracker])))⟩

/-- C5: verification is monotone.  If the tracker for an anomaly type is
verified and its last detection is recent enough to survive the 120-second
pruning, then after any further `processAnomaly` call (any score, any
anomaly flag) the tracker for that type is still present and still
verified; moreover pruning only ever deletes whole trackers — every tracker
that survives a cleanup pass is exactly one of the trackers that were
already stored. -/
theorem processAnomaly_verified_monotone (exec : ResponseAction → Bool)
    (now : ℤ) (st : ResponseProtocolState) (r : FrameAnalysisResult)
    (t : AnomalyTracker)
    (hT : st.activeAnomalies.lookup r.anomalyType = some t)
    (hV : t.verified = true)
    (halive : msToSec (now - t.lastDetectedTime) ≤ 120) :
    (∃ tF, (st.processAnomaly exec now r).1.activeAnomalies.lookup
        r.anomalyType = some tF ∧ tF.verified = true) ∧
    (∀ p, p ∈ cleanupAnomalies now st.activeAnomalies →
      p ∈ st.activeAnomalies) := by
  constructor
  · by_cases hA : r.isAnomaly = true
    · have hT2 := lookup_cleanupAnomalies now st.activeAnomalies
        r.anomalyType t hT halive
      have hupd := updateTracker_flags now r.anomalyScore t
      have hupdV : (updateTracker now r.anomalyScore t).verified = true := by
        rw [hupd.1]; exact hV
      have hver := verifyAnomaly_verified r.anomalyScore
        (updateTracker now r.anomalyScore t) hupdV
      have heq := processAnomaly_existing_eq exec now st r t hA hT2
      rw [hver] at heq
      by_cases hrsp : (updateTracker now r.anomalyScore t).responded
      · refine ⟨updateTracker now r.anomalyScore t, ?_, hupdV⟩
        rw [heq, if_neg (by simp [hrsp])]
        exact lookup_mapInsert_self _ _ _
      · refine ⟨{ updateTracker now r.anomalyScore t with responded := true },
          ?_, hupdV⟩
        rw [heq, if_pos (by simp [hrsp]),
          triggerResponsesFor_activeAnomalies]
        exact lookup_mapInsert_self _ _ _
    · have hA2 : r.isAnomaly = false := by
        revert hA; cases r.isAnomaly <;> simp
      refine ⟨t, ?_, hV⟩
      simp [ResponseProtocolState.processAnomaly, hA2, hT]
  · intro p hp
    exact List.mem_of_mem_filter hp

/-- C5, witness: the monotonicity theorem applied to a verified copy of
`sampleTracker` and a low-score (0.1) anomalous frame. -/
theorem processAnomaly_verified_monotone_witness :
    ∃ tF, (verifiedSampleState.processAnomaly (fun _ => true) 2000
        lowScoreAnomalyResult).1.activeAnomalies.lookup "UnknownVisitor" =
        some tF ∧ tF.verified = true :=
  (processAnomaly_verified_monotone (fun _ => true) 2000 verifiedSampleState
    lowScoreAnomalyResult { sampleTracker with verified := true }
    (by norm_num [verifiedSampleState, lowScoreAnomalyResult,
      sampleAnomalyResult, List.lookup])
    rfl
    (by norm_num [sampleTracker, msToSec, truncToInt])).1

/-- C6: cooldown is never violated.  If a response action fires (executes
successfully) in a `triggerResponses` pass at time `T`, then in any later
`triggerResponses` pass at a time strictly before `T + cooldownMs` the same
action is skipped outright — not invoked at all — and left unchanged; this
holds whatever happened to the anomaly trackers (re-verification never
touches `lastTriggeredTime`). -/
theorem triggerResponses_cooldown_enforced (e1 e2 : ResponseAction → Bool)
    (tT now : ℤ) (actions : List ResponseAction) (i : ℕ)
    (h1 : i < actions.length)
    (h2 : i < (triggerResponses e1 tT actions).length)
    (h3 : i < (triggerResponses e2 now
      ((triggerResponses e1 tT actions).map Prod.fst)).length)
    (hfired : ((triggerResponses e1 tT actions).get ⟨i, h2⟩).2 = some true)
    (hcool : now < tT + (actions.get ⟨i, h1⟩).cooldownMs) :
    ((triggerResponses e2 now
        ((triggerResponses e1 tT actions).map Prod.fst)).get ⟨i, h3⟩).2 =
      none ∧
    ((triggerResponses e2 now
        ((triggerResponses e1 tT actions).map Prod.fst)).get ⟨i, h3⟩).1 =
      ((triggerResponses e1 tT actions).get ⟨i, h2⟩).1 := by
  set a := actions.get ⟨i, h1⟩ with ha
  have hstep1 : (triggerResponses e1 tT actions).get ⟨i, h2⟩ =
      triggerStep e1 tT a := by
    simp [triggerResponses, ha]
  have hfired2 : (triggerStep e1 tT a).2 = some true := by
    rw [← hstep1]; exact hfired
  have hfire_eq : triggerStep e1 tT a =
      ({ a with lastTriggeredTime := tT }, some true) := by
    unfold triggerStep at hfired2 ⊢
    split_ifs at hfired2 ⊢ <;> simp_all
  have hstep2 : (triggerResponses e2 now
      ((triggerResponses e1 tT actions).map Prod.fst)).get ⟨i, h3⟩ =
      triggerStep e2 now (triggerStep e1 tT a).1 := by
    simp [triggerResponses, ha]
  have hskip : triggerStep e2 now { a with lastTriggeredTime := tT } =
      ({ a with lastTriggeredTime := tT }, none) := by
    unfold triggerStep
    rw [if_pos]
    simp only
    omega
  refine ⟨?_, ?_⟩
  · rw [hstep2, hfire_eq, hskip]
  · rw [hstep2, hstep1, hfire_eq, hskip]

/-- C6, witness: a log action that fired at time 100000 is skipped and
unchanged when responses are triggered again 59999 ms later (cooldown
60000 ms). -/
theorem triggerResponses_cooldown_enforced_witness :
    ((triggerResponses (fun _ => true) 159999
        ((triggerResponses (fun _ => true) 100000
          [{ name := "LogAnomaly" }]).map Prod.fst)).get
        ⟨0, by norm_num [triggerResponses]⟩).2 = none :=
  (triggerResponses_cooldown_enforced (fun _ => true) (fun _ => true)
    100000 159999 [{ name := "LogAnomaly" }] 0
    (by norm_num)
    (by norm_num [triggerResponses])
    (by norm_num [triggerResponses])
    (by norm_num [triggerResponses, triggerStep])
    (by norm_num)).1

/-- Lookup through a filter: a stored value whose entry the filter keeps is
still found unchanged. -/
theorem lookup_filter_of_lookup {α : Type} (f : String × α → Bool)
    (l : List (String × α)) (k : String) (v : α)
    (h : l.lookup k = some v) (hkeep : f (k, v) = true) :
    (l.filter f).lookup k = some v := by
  induction l with
  | nil => simp at h
  | cons p rest ih =>
    obtain ⟨k0, v0⟩ := p
    by_cases hk : k = k0
    · subst hk
      have hb : (k == k) = true := by simp
      simp only [List.lookup, hb] at h
      obtain rfl : v0 = v := by simpa using h
      rw [List.filter_cons, if_pos hkeep]
      simp [List.lookup, hb]
    · have hb : (k == k0) = false := by simp [hk]
      simp only [List.lookup, hb] at h
      rw [List.filter_cons]
      by_cases hf : f (k0, v0) = true
      · rw [if_pos hf]
        simpa [List.lookup, hb] using ih h
      · rw [if_neg hf]
        exact ih h

/-- Lookup through a key-preserving value map. -/
theorem lookup_map_valueMap {α : Type} (g : α → α)
    (l : List (String × α)) (k : String) :
    (l.map (fun p => (p.1, g p.2))).lookup k = (l.lookup k).map g := by
  induction l with
  | nil => rfl
  | cons p rest ih =>
    obtain ⟨k0, v0⟩ := p
    by_cases hk : k = k0
    · subst hk
      have hb : (k == k) = true := by simp
      simp [List.lookup, hb]
    · have hb : (k == k0) = false := by simp [hk]
      simp [List.lookup, hb, ih]

/-- A fold of plan-action insertions never changes the plan's identity,
incident link, creation time or status. -/
theorem planCore_foldl {α : Type} (g : StrategicPlan → α → StrategicPlan)
    (hg : ∀ p a, (g p a).planId = p.planId ∧ (g p a).incidentId = p.incidentId ∧
      (g p a).status = p.status ∧ (g p a).createTime = p.createTime)
    (l : List α) (p : StrategicPlan) :
    (l.foldl g p).planId = p.planId ∧
    (l.foldl g p).incidentId = p.incidentId ∧
    (l.foldl g p).status = p.status ∧
    (l.foldl g p).createTime = p.createTime := by
  induction l generalizing p with
  | nil => exact ⟨rfl, rfl, rfl, rfl⟩
  | cons a rest ih =>
    rw [List.foldl_cons]
    obtain ⟨h1, h2, h3, h4⟩ := ih (g p a)
    obtain ⟨g1, g2, g3, g4⟩ := hg p a
    exact ⟨h1.trans g1, h2.trans g2, h3.trans g3, h4.trans g4⟩

/-- The generated plan carries the supplied plan id, is linked to the
incident's id, is ACTIVE, and is stamped with the call time, on both the
oracle and the fallback path. -/
theorem generatePlanWithLLM_core (now : ℤ) (planId : String)
    (cams : List (String × CameraInfo))
    (llmActions : Option (List (Bool × String))) (inc : SecurityIncident) :
    (generatePlanWithLLM now planId cams llmActions inc).planId = planId ∧
    (generatePlanWithLLM now planId cams llmActions inc).incidentId =
      inc.incidentId ∧
    (generatePlanWithLLM now planId cams llmActions inc).status =
      PlanStatus.active ∧
    (generatePlanWithLLM now planId cams llmActions inc).createTime = now := by
  have keyN := fun (l : List (ℕ × String)) (p : StrategicPlan) =>
    planCore_foldl
      (fun q pair => q.addAction now pair.2 (10 - (pair.1 : ℤ))
        (now + (pair.1 : ℤ) * 300000))
      (fun _ _ => ⟨rfl, rfl, rfl, rfl⟩) l p
  have keyS := fun (l : List (ℕ × (Bool × String))) (p : StrategicPlan) =>
    planCore_foldl
      (fun q pair =>
        if pair.2.1 then q
        else q.addAction now pair.2.2 (10 - (pair.1 : ℤ))
          (now + (pair.1 : ℤ) * 300000))
      (fun q a => by
        by_cases hb : a.2.1 = true
        · simp [hb]
        · simp only [hb, if_false]
          exact ⟨rfl, rfl, rfl, rfl⟩) l p
  cases llmActions with
  | none =>
    simp only [generatePlanWithLLM]
    exact keyN _ _
  | some acts =>
    simp only [generatePlanWithLLM]
    exact keyS _ _

/-- `createIncident` stores a NEW incident with the requested type and
severity stamped at the call time, and a same-call ACTIVE plan linked to the
new incident's id. -/
theorem createIncident_spec (now : ℤ) (incId planId : String)
    (llmActions : Option (List (Bool × String))) (st : StrategyManagerState)
    (ty : IncidentType) (sev : IncidentSeverity)
    (cameraId description : String) :
    ∃ inc plan,
      ((st.createIncident now incId planId llmActions ty sev cameraId
        description).2.incidents.lookup incId = some inc) ∧
      ((st.createIncident now incId planId llmActions ty sev cameraId
        description).2.plans.lookup planId = some plan) ∧
      plan.incidentId = incId ∧ plan.status = PlanStatus.active ∧
      plan.createTime = now ∧ inc.status = IncidentStatus.new ∧
      inc.type = ty ∧ inc.severity = sev ∧ inc.updateTime = now := by
  obtain ⟨hp1, hp2, hp3, hp4⟩ := generatePlanWithLLM_core now planId st.cameras
    llmActions
    (SecurityIncident.addResponseAction now "INCIDENT_CREATED"
      "Incident created automatically by system" "system"
      { incidentId := incId, type := ty, severity := sev,
        status := IncidentStatus.new, primaryCameraId := cameraId,
        description := description, startTime := now, updateTime := now })
  simp only [StrategyManagerState.createIncident,
    StrategyManagerState.generatePlan, lookup_mapInsert_self]
  refine ⟨_, _, rfl, ?_, hp2, hp3, hp4, rfl, rfl, rfl, rfl⟩
  rw [hp1]
  exact lookup_mapInsert_self _ _ _

/-- The severity bucket of `processAnalysisResult` matches the claimed
intervals. -/
theorem severityFromScore_spec (s : ℚ) :
    (85/100 < s → severityFromScore s = IncidentSeverity.critical) ∧
    (7/10 < s ∧ s ≤ 85/100 → severityFromScore s = IncidentSeverity.high) ∧
    (1/2 < s ∧ s ≤ 7/10 → severityFromScore s = IncidentSeverity.medium) ∧
    (s ≤ 1/2 → severityFromScore s = IncidentSeverity.low) := by
  refine ⟨fun h => ?_, fun h => ?_, fun h => ?_, fun h => ?_⟩ <;>
    unfold severityFromScore <;> split_ifs <;>
    first
      | rfl
      | (exfalso; linarith)

/-- C7: on every observation with `isAnomaly = true`,
`processAnalysisResult` opens a new incident whose status is NEW, whose
type is the anomaly-type mapping, and whose severity bucket is CRITICAL for
score > 0.85, HIGH for 0.7 < score ≤ 0.85, MEDIUM for 0.5 < score ≤ 0.7 and
LOW otherwise; and within the same call an ACTIVE plan linked to that
incident's id is generated and stored (both records survive the same-call
cleanup sweep). -/
theorem processAnalysisResult_opens_incident_and_plan (now : ℤ)
    (freshIds : ℕ → String) (incId planId : String)
    (llmActions : Option (List (Bool × String)))
    (st : StrategyManagerState) (cameraId : String)
    (r : FrameAnalysisResult) (hA : r.isAnomaly = true) :
    ∃ inc plan,
      ((st.processAnalysisResult now freshIds incId planId llmActions
        cameraId r).incidents.lookup incId = some inc) ∧
      ((st.processAnalysisResult now freshIds incId planId llmActions
        cameraId r).plans.lookup planId = some plan) ∧
      plan.incidentId = incId ∧ plan.status = PlanStatus.active ∧
      inc.status = IncidentStatus.new ∧
      inc.type = incidentTypeOf r.anomalyType ∧
      (85/100 < r.anomalyScore → inc.severity = IncidentSeverity.critical) ∧
      (7/10 < r.anomalyScore ∧ r.anomalyScore ≤ 85/100 →
        inc.severity = IncidentSeverity.high) ∧
      (1/2 < r.anomalyScore ∧ r.anomalyScore ≤ 7/10 →
        inc.severity = IncidentSeverity.medium) ∧
      (r.anomalyScore ≤ 1/2 → inc.severity = IncidentSeverity.low) := by
  obtain ⟨inc, plan, hinc, hplan, hlink, hpstat, hpcreate, histat, hitype,
    hisev, hiupd⟩ :=
    createIncident_spec now incId planId llmActions
      (StrategyManagerState.mk st.cameras
        (r.objects.enum.foldl (fun subs pair =>
          updateTrackedSubjectOp now (freshIds pair.1) cameraId pair.2 subs)
          st.subjects)
        st.incidents st.plans)
      (incidentTypeOf r.anomalyType) (severityFromScore r.anomalyScore)
      cameraId r.anomalyDescription
  have hstep : st.processAnalysisResult now freshIds incId planId llmActions
      cameraId r =
      StrategyManagerState.cleanupOldData now
        ((StrategyManagerState.mk st.cameras
          (r.objects.enum.foldl (fun subs pair =>
            updateTrackedSubjectOp now (freshIds pair.1) cameraId pair.2 subs)
            st.subjects)
          st.incidents st.plans).createIncident
          now incId planId llmActions (incidentTypeOf r.anomalyType)
          (severityFromScore r.anomalyScore) cameraId
          r.anomalyDescription).2 := by
    simp [StrategyManagerState.processAnalysisResult, hA]
  have hresolve : resolveOldIncident now inc = inc := by
    unfold resolveOldIncident
    rw [if_neg]
    intro hcond
    have hlt := hcond.2.2
    rw [hiupd] at hlt
    simp [msToMin, truncToInt] at hlt
  obtain ⟨hsev1, hsev2, hsev3, hsev4⟩ := severityFromScore_spec r.anomalyScore
  refine ⟨inc, plan, ?_, ?_, hlink, hpstat, histat, hitype,
    fun h => by rw [hisev]; exact hsev1 h,
    fun h => by rw [hisev]; exact hsev2 h,
    fun h => by rw [hisev]; exact hsev3 h,
    fun h => by rw [hisev]; exact hsev4 h⟩
  · rw [hstep]
    unfold StrategyManagerState.cleanupOldData
    rw [lookup_map_valueMap, hinc]
    simp [hresolve]
  · rw [hstep]
    unfold StrategyManagerState.cleanupOldData
    refine lookup_filter_of_lookup _ _ _ _ hplan ?_
    simp [hpstat]

/-- C7, witness: the theorem applied to a concrete empty manager and the
score-0.75 anomalous observation; the incident comes out HIGH with a
same-call ACTIVE plan linked to it. -/
theorem processAnalysisResult_opens_incident_and_plan_witness :
    ∃ inc plan,
      ((emptyStrategyState.processAnalysisResult 5000 (fun _ => "SUBJ-1")
        "INC-1" "PLAN-1" none "cam1" sampleAnomalyResult).incidents.lookup
        "INC-1" = some inc) ∧
      ((emptyStrategyState.processAnalysisResult 5000 (fun _ => "SUBJ-1")
        "INC-1" "PLAN-1" none "cam1" sampleAnomalyResult).plans.lookup
        "PLAN-1" = some plan) ∧
      plan.incidentId = "INC-1" ∧ inc.severity = IncidentSeverity.high := by
  obtain ⟨inc, plan, h1, h2, h3, _, _, _, _, hhigh, _, _⟩ :=
    processAnalysisResult_opens_incident_and_plan 5000 (fun _ => "SUBJ-1")
      "INC-1" "PLAN-1" none emptyStrategyState "cam1" sampleAnomalyResult rfl
  refine ⟨inc, plan, h1, h2, h3, hhigh ⟨?_, ?_⟩⟩ <;>
    norm_num [sampleAnomalyResult, sampleObservation]

/-- Draining a running queue executes exactly the queued tasks, in queue
order, appended to whatever was executed before. -/
theorem workerDrain_executed (q : List Task) :
    ∀ ex : List Task,
      (workerDrain ⟨q, true, ex⟩).executed = ex ++ q := by
  induction q with
  | nil =>
    intro ex
    unfold workerDrain
    simp
  | cons t rest ih =>
    intro ex
    unfold workerDrain
    simp only [Bool.true_eq_false, if_false]
    exact (ih (ex ++ [t])).trans (by simp)

/-- Enqueueing appends to the back of the queue and touches nothing else. -/
theorem foldl_enqueueTask (ts : List Task) :
    ∀ s : ReasoningQueueState,
      ts.foldl enqueueTask s =
        ⟨s.taskQueue ++ ts, s.running, s.executed⟩ := by
  induction ts with
  | nil => intro s; simp
  | cons t rest ih =>
    intro s
    rw [List.foldl_cons, ih]
    simp [enqueueTask]

/-- C8: the Cognitive Core task queue is strictly FIFO.  Enqueueing any
sequence of tasks into an idle running system and letting the worker drain
executes exactly that sequence in enqueue order; and rewriting every task's
priority field arbitrarily before enqueueing yields the same execution
order (the reprioritized tasks are executed at the same positions), so the
priority recorded on enqueue never changes execution order. -/
theorem taskQueue_strict_fifo (ts : List Task) (f : Task → ℤ) :
    (workerDrain (ts.foldl enqueueTask ⟨[], true, []⟩)).executed = ts ∧
    (workerDrain ((ts.map (fun t => { t with priority := f t })).foldl
        enqueueTask ⟨[], true, []⟩)).executed =
      ts.map (fun t => { t with priority := f t }) := by
  constructor
  · rw [foldl_enqueueTask]
    simpa using workerDrain_executed ts []
  · rw [foldl_enqueueTask]
    simpa using workerDrain_executed
      (ts.map (fun t => { t with priority := f t })) []

end NxAgent
